import Mathlib

set_option maxRecDepth 100000

namespace InsightsAgent

/-! String utilities mirroring the Python built-ins used by `insights_agent/server.py`. -/

def listInfix (pat : List Char) : List Char → Bool
  | [] => pat.isEmpty
  | c :: rest => pat.isPrefixOf (c :: rest) || listInfix pat rest

/-- Python `pat in s` (substring containment). -/
def strContains (s pat : String) : Bool :=
  listInfix pat.data s.data

/-- Python `s.startswith(pre)`. -/
def strStarts (s pre : String) : Bool :=
  pre.data.isPrefixOf s.data

/-- Python `s.lower()` (ASCII range). -/
def lowerStr (s : String) : String :=
  ⟨s.data.map Char.toLower⟩

/-- Python `s.upper()` (ASCII range). -/
def upperStr (s : String) : String :=
  ⟨s.data.map Char.toUpper⟩

/-- Python `s.strip()`. -/
def strTrim (s : String) : String :=
  ⟨((s.data.dropWhile Char.isWhitespace).reverse.dropWhile Char.isWhitespace).reverse⟩

/-- Python `s.replace(old, repl)`: one left-to-right scan replacing non-overlapping occurrences. The fuel is instantiated with the length of `s`, which suffices when `old` is nonempty; an empty `old` (never used by the server) leaves the string unchanged. -/
def pyReplaceAux (old repl : List Char) : Nat → List Char → List Char
  | _, [] => []
  | 0, s => s
  | fuel + 1, c :: cs =>
    if old.isPrefixOf (c :: cs) && !old.isEmpty then
      repl ++ pyReplaceAux old repl fuel ((c :: cs).drop old.length)
    else
      c :: pyReplaceAux old repl fuel cs

def pyReplace (s old repl : String) : String :=
  ⟨pyReplaceAux old.data repl.data s.data.length s.data⟩

def digitsToNat (ds : List Char) : Nat :=
  ds.foldl (fun a c => 10 * a + (c.toNat - 48)) 0

/-- Python `re.search(r"(\d+)", s)`: the first maximal digit run, if any. -/
def firstDigitRun : List Char → Option (List Char)
  | [] => none
  | c :: rest =>
    if c.isDigit then some ((c :: rest).takeWhile Char.isDigit) else firstDigitRun rest

def afterPre (pre s : List Char) : Option (List Char) :=
  if pre.isPrefixOf s then some (s.drop pre.length) else none

/-- Match `pre (\d+) post` at the head of `s`, returning the digit group. -/
def numPatAt (pre post s : List Char) : Option (List Char) :=
  match afterPre pre s with
  | none => none
  | some s1 =>
    let ds := s1.takeWhile Char.isDigit
    if ds.isEmpty then none
    else
      match afterPre post (s1.dropWhile Char.isDigit) with
      | none => none
      | some _ => some ds

/-- Python `re.search` for the pattern `pre (\d+) post`: leftmost match wins. -/
def searchNumPat (pre post : List Char) : List Char → Option (List Char)
  | [] => none
  | c :: rest =>
    match numPatAt pre post (c :: rest) with
    | some ds => some ds
    | none => searchNumPat pre post rest

/-- Python `sep.join(parts)`. -/
def joinSep (sep : String) : List String → String
  | [] => ""
  | [x] => x
  | x :: y :: rest => x ++ sep ++ joinSep sep (y :: rest)

/-! Data model from `server.py` lines 24-72. -/

structure MetricDef where
  name : String
  description : String
  sql_template : String
  table : String
  filter : String
  unit : String
deriving DecidableEq

def METRIC_DEFINITIONS : List (String × MetricDef) :=
  [("active_users",
    { name := "Active Users",
      description := "Unique users who logged in at least once in the time period",
      sql_template := "COUNT(DISTINCT user_id)",
      table := "analytics.user_events",
      filter := "event_type = \x27login\x27",
      unit := "users" }),
   ("revenue",
    { name := "Total Revenue",
      description := "Sum of all completed transaction amounts",
      sql_template := "SUM(amount)",
      table := "analytics.transactions",
      filter := "status = \x27completed\x27",
      unit := "dollars" }),
   ("conversion_rate",
    { name := "Conversion Rate",
      description := "Percentage of visitors who completed a purchase",
      sql_template := "COUNT(DISTINCT CASE WHEN purchased = true THEN user_id END) * 100.0 / COUNT(DISTINCT user_id)",
      table := "analytics.user_sessions",
      filter := "",
      unit := "percent" }),
   ("signups",
    { name := "New Signups",
      description := "Count of new user registrations",
      sql_template := "COUNT(DISTINCT user_id)",
      table := "analytics.signups",
      filter := "",
      unit := "users" })]

def BUSINESS_GLOSSARY : List (String × String) :=
  [("customers", "users"),
   ("purchases", "transactions"),
   ("sales", "revenue"),
   ("registrations", "signups"),
   ("conversions", "conversion_rate")]

structure ParsedQuestion where
  metrics : List String
  time_period : String
  original_question : String
deriving DecidableEq

/-- Glossary normalization loop of `_parse_question` (server.py lines 614-615). -/
def normalizeText (glossary : List (String × String)) (text : String) : String :=
  glossary.foldl (fun acc p => pyReplace acc p.1 p.2) text

/-- Time-pattern cascade of `_parse_question` (server.py lines 626-638), applied to the normalized lowercase question. -/
def questionTimePeriod (ql : String) : String :=
  match searchNumPat "last ".data " day".data ql.data with
  | some ds => "last " ++ String.mk ds ++ " days"
  | none =>
    match searchNumPat "past ".data " week".data ql.data with
    | some ds => "last " ++ toString (digitsToNat ds * 7) ++ " days"
    | none =>
      if strContains ql "last month" then "last 30 days"
      else if strContains ql "this month" then "this month"
      else if strContains ql "last week" then "last 7 days"
      else "last 7 days"

/-- `_parse_question` (server.py lines 609-644), generalized over catalog and glossary. -/
def parseQuestionG (catalog : List (String × MetricDef)) (glossary : List (String × String))
    (question : String) : ParsedQuestion :=
  let ql := normalizeText glossary (lowerStr question)
  { metrics :=
      (catalog.filter (fun p => strContains ql p.1 || strContains ql (lowerStr p.2.name))).map
        (fun p => p.1),
    time_period := questionTimePeriod ql,
    original_question := question }

def _parse_question (question : String) : ParsedQuestion :=
  parseQuestionG METRIC_DEFINITIONS BUSINESS_GLOSSARY question

/-- Fall-through checks of `_parse_time_period` after the `last ... days` branch (server.py lines 681-688). -/
def timePeriodFallback (t : String) : String :=
  if strContains t "this month" then
    "event_date >= DATE_TRUNC(\x27month\x27, CURRENT_DATE)"
  else if strContains t "last month" then
    "event_date >= DATE_TRUNC(\x27month\x27, CURRENT_DATE - INTERVAL \x271 month\x27) AND event_date < DATE_TRUNC(\x27month\x27, CURRENT_DATE)"
  else
    "event_date >= CURRENT_DATE - INTERVAL \x277 days\x27"

/-- `_parse_time_period` (server.py lines 672-688). -/
def _parse_time_period (time_period : String) : String :=
  let t := lowerStr time_period
  if strContains t "last" && strContains t "days" then
    match firstDigitRun t.data with
    | some ds => "event_date >= CURRENT_DATE - INTERVAL \x27" ++ String.mk ds ++ " days\x27"
    | none => timePeriodFallback t
  else timePeriodFallback t

/-- Query assembly of `generate_query` (server.py lines 192-212) for a metric found in the catalog. -/
def buildQuery (metric_def : MetricDef) (time_period filters group_by : String) : String :=
  let date_filter := _parse_time_period time_period
  let select_clause :=
    if group_by = "" then metric_def.sql_template
    else group_by ++ ", " ++ metric_def.sql_template
  let where_clauses :=
    (if metric_def.filter = "" then [] else [metric_def.filter]) ++
      (if date_filter = "" then [] else [date_filter]) ++
      (if filters = "" then [] else [filters])
  let where_clause := if where_clauses = [] then "" else joinSep " AND " where_clauses
  let q1 := "SELECT " ++ select_clause ++ "\nFROM " ++ metric_def.table
  let q2 := if where_clause = "" then q1 else q1 ++ "\nWHERE " ++ where_clause
  if group_by = "" then q2 else q2 ++ "\nGROUP BY " ++ group_by

/-- `generate_query` (server.py lines 163-236): `none` models the metric-not-found report path. -/
def generateQueryG (catalog : List (String × MetricDef))
    (metric time_period filters group_by : String) : Option String :=
  match catalog.lookup metric with
  | none => none
  | some metric_def => some (buildQuery metric_def time_period filters group_by)

def generate_query (metric time_period filters group_by : String) : Option String :=
  generateQueryG METRIC_DEFINITIONS metric time_period filters group_by

/-- `_generate_sql_query` (server.py lines 647-669). The inner `none` branch is unreachable: `_parse_question` only emits catalog keys. -/
def _generate_sql_query (catalog : List (String × MetricDef)) (parsed : ParsedQuestion)
    (time_period : String) : Except String String :=
  match parsed.metrics with
  | [] => .error "No metrics identified in question"
  | metric_id :: _ =>
    match catalog.lookup metric_id with
    | none => .error ("Unknown metric: " ++ metric_id)
    | some metric =>
      let date_filter := _parse_time_period time_period
      let where_clauses :=
        (if metric.filter = "" then [] else [metric.filter]) ++
          (if date_filter = "" then [] else [date_filter])
      let where_clause := if where_clauses = [] then "" else joinSep " AND " where_clauses
      let sql := "SELECT " ++ metric.sql_template ++ "\nFROM " ++ metric.table
      .ok (if where_clause = "" then sql else sql ++ "\nWHERE " ++ where_clause)

/-! Query validator (server.py lines 293-373). -/

structure ValidationReport where
  issues : List String
  warnings : List String
  recommendations : List String
  passed : Bool
deriving DecidableEq

def validate_query (sql_query : String) : ValidationReport :=
  let u := upperStr sql_query
  let l := lowerStr sql_query
  let issues :=
    (if strStarts (upperStr (strTrim sql_query)) "SELECT" then []
     else ["Query must start with SELECT"]) ++
      (if strContains u "FROM" then [] else ["Query missing FROM clause"])
  let warnings :=
    (if strContains u "SELECT *" then ["SELECT * can be slow - specify only needed columns"]
     else []) ++
      (if strContains u "WHERE" then [] else ["No WHERE clause - query will scan entire table"])
  let has_date_filter :=
    strContains l "event_date" || strContains l "created_at" || strContains l "timestamp" ||
      strContains l "date"
  let has_aggregation :=
    strContains u "COUNT" || strContains u "SUM" || strContains u "AVG" ||
      strContains u "MIN" || strContains u "MAX"
  let has_group_by := strContains u "GROUP BY"
  let recommendations :=
    (if has_date_filter then [] else ["Consider adding a date filter to improve performance"]) ++
      (if has_aggregation && !has_group_by then
        ["Using aggregation without GROUP BY - result will be a single row"]
       else [])
  { issues, warnings, recommendations, passed := issues.isEmpty }

/-- `_simulate_query_execution` (server.py lines 691-701), parameterized by the process string-hash function. -/
def _simulate_query_execution (pyHash : String → Int) (sql : String) : ℚ :=
  if strContains (upperStr sql) "COUNT" then (1247 : ℚ) + ((pyHash sql % 1000 : ℤ) : ℚ)
  else if strContains (upperStr sql) "SUM" then (50000 : ℚ) + ((pyHash sql % 50000 : ℤ) : ℚ)
  else if strContains (upperStr sql) "AVG" then (25 : ℚ) + ((pyHash sql % 100 : ℤ) : ℚ) / 10
  else (100 : ℚ) + ((pyHash sql % 900 : ℤ) : ℚ)

/-! Statistical explainer (server.py lines 750-772), over exact rationals. -/

structure HistoricalContext where
  baseline : ℚ
  trend : String
deriving DecidableEq

/-- `_get_historical_context` (server.py lines 750-758). -/
def _get_historical_context (pyHash : String → Int) (metric : String) (value : ℚ)
    (time_period : String) : HistoricalContext :=
  let baseline := value * (9 / 10 : ℚ) + ((pyHash metric % 200 : ℤ) : ℚ)
  { baseline, trend := if value > baseline then "increasing" else "decreasing" }

structure StatContext where
  change : ℚ
  direction : String
  significance : String
deriving DecidableEq

/-- `_calculate_statistical_context` (server.py lines 761-772); `none` models the ZeroDivisionError raised when the baseline is zero. -/
def _calculate_statistical_context (value baseline : ℚ) : Option StatContext :=
  if baseline = 0 then none
  else
    let change := (value - baseline) / baseline * 100
    some
      { change,
        direction := if change > 0 then "increase" else "decrease",
        significance := if |change| > 10 then "Significant" else "Within normal variance" }

/-! Python `float(str)` over exact rationals: sign, integer part, optional fraction, optional exponent. -/

def parseExpTail (s : List Char) : Option Int :=
  let (neg, s1) :=
    match s with
    | '-' :: r => (true, r)
    | '+' :: r => (false, r)
    | _ => (false, s)
  let ds := s1.takeWhile Char.isDigit
  if ds.isEmpty then none
  else if (s1.dropWhile Char.isDigit).isEmpty then
    some (if neg then -(digitsToNat ds : Int) else (digitsToNat ds : Int))
  else none

def parseFloat (s : String) : Option ℚ :=
  let s0 := (strTrim s).data
  let (neg, s1) :=
    match s0 with
    | '-' :: r => (true, r)
    | '+' :: r => (false, r)
    | _ => (false, s0)
  let ip := s1.takeWhile Char.isDigit
  let s2 := s1.dropWhile Char.isDigit
  let (fp, s3) :=
    match s2 with
    | '.' :: r => (r.takeWhile Char.isDigit, r.dropWhile Char.isDigit)
    | _ => ([], s2)
  if ip.isEmpty && fp.isEmpty then none
  else
    let mant : ℚ := (digitsToNat ip : ℚ) + (digitsToNat fp : ℚ) / (10 : ℚ) ^ fp.length
    let signed := if neg then -mant else mant
    match s3 with
    | [] => some signed
    | c :: r =>
      if c = 'e' || c = 'E' then
        match parseExpTail r with
        | some e => some (signed * (10 : ℚ) ^ e)
        | none => none
      else none

inductive ExplainOutcome
  | unknownMetric
  | unparseable
  | divByZero
  | report (value baseline change : ℚ) (direction significance : String)
deriving DecidableEq

/-- `explain_result` (server.py lines 240-290), returning the report data assembled from the historical and statistical context; `divByZero` models the ZeroDivisionError escaping from `_calculate_statistical_context`. -/
def explainResultG (pyHash : String → Int) (catalog : List (String × MetricDef))
    (result_value metric time_period : String) : ExplainOutcome :=
  match catalog.lookup metric with
  | none => .unknownMetric
  | some _ =>
    match parseFloat (pyReplace result_value "," "") with
    | none => .unparseable
    | some value =>
      let historical := _get_historical_context pyHash metric value time_period
      match _calculate_statistical_context value historical.baseline with
      | none => .divByZero
      | some stats =>
        .report value historical.baseline stats.change stats.direction stats.significance

def explain_result (pyHash : String → Int) (result_value metric time_period : String) :
    ExplainOutcome :=
  explainResultG pyHash METRIC_DEFINITIONS result_value metric time_period

/-! Template store (server.py lines 420-464). -/

structure QueryTemplate where
  name : String
  sql : String
  description : String
  created_at : String
  run_count : Nat
deriving DecidableEq

inductive SaveOutcome
  | saved
  | duplicate
deriving DecidableEq

/-- Template id normalization of `save_query_template` (server.py line 433). -/
def templateIdOf (name : String) : String :=
  pyReplace (lowerStr name) " " "_"

/-- `save_query_template` (server.py lines 420-464): the duplicate branch returns a warning outcome and leaves the store untouched. -/
def save_query_template (templates : List (String × QueryTemplate))
    (name sql_query description now : String) : SaveOutcome × List (String × QueryTemplate) :=
  let template_id := templateIdOf name
  match templates.lookup template_id with
  | some _ => (.duplicate, templates)
  | none =>
    (.saved,
      templates ++
        [(template_id,
          { name, sql := sql_query, description, created_at := now, run_count := 0 })])

/-! Process state and the tool-level operations, for the frame property. The state carries the four module-level stores of server.py (lines 24-72); each operation reads the catalog and glossary from the state and returns the possibly-updated state together with its report data. -/

structure HistoryEntry where
  question : String
  time_period : String
  sql : String
  result : ℚ
  timestamp : String
deriving DecidableEq

structure AgentState where
  metric_definitions : List (String × MetricDef)
  business_glossary : List (String × String)
  query_history : List HistoryEntry
  query_templates : List (String × QueryTemplate)
deriving DecidableEq

/-- `_assess_data_quality` (server.py lines 704-708). -/
def _assess_data_quality (metric time_period : String) : String :=
  "✓ Data is fresh (updated 2 hours ago)\n✓ No missing days in date range\n✓ Volume within expected range (within 2σ of baseline)"

/-- `_suggest_followup_questions` (server.py lines 711-727); the `none` branch is unreachable for callers that pass a catalog key. -/
def _suggest_followup_questions (catalog : List (String × MetricDef))
    (metric time_period : String) : List String :=
  match catalog.lookup metric with
  | none => []
  | some metric_def =>
    let suggestions :=
      ["What was " ++ lowerStr metric_def.name ++ " for the previous period?",
       "Show me " ++ lowerStr metric_def.name ++ " broken down by day",
       "Compare " ++ lowerStr metric_def.name ++ " to the same period last year"]
    if metric = "active_users" then
      suggestions ++ ["What\x27s the conversion rate for these users?"]
    else if metric = "revenue" then
      suggestions ++ ["What\x27s the average transaction value?"]
    else suggestions

/-- `_list_available_metrics` (server.py lines 730-735). -/
def _list_available_metrics (catalog : List (String × MetricDef)) : String :=
  joinSep "\n" (catalog.map (fun p => "• " ++ p.2.name ++ " - " ++ p.2.description))

inductive AskOutcome
  | unparsed (question : String) (available : String)
  | genError (msg : String)
  | answered (sql : String) (result : ℚ) (unitLabel quality : String) (followups : List String)
deriving DecidableEq

/-- `ask_question` (server.py lines 76-159): on success it appends one history entry; it never touches catalog, glossary, or templates. -/
def ask_question (pyHash : String → Int) (st : AgentState) (question time_period now : String) :
    AgentState × AskOutcome :=
  let parsed := parseQuestionG st.metric_definitions st.business_glossary question
  match parsed.metrics with
  | [] => (st, .unparsed question (_list_available_metrics st.metric_definitions))
  | m :: _ =>
    match _generate_sql_query st.metric_definitions parsed time_period with
    | .error e => (st, .genError e)
    | .ok sql =>
      let result_value := _simulate_query_execution pyHash sql
      let quality := _assess_data_quality m time_period
      let st2 :=
        { st with
          query_history :=
            st.query_history ++ [⟨question, time_period, sql, result_value, now⟩] }
      match st.metric_definitions.lookup m with
      | none => (st2, .genError ("Unknown metric: " ++ m))
      | some metric_def =>
        (st2,
          .answered sql result_value metric_def.unit quality
            (_suggest_followup_questions st.metric_definitions m time_period))

def generate_query_tool (st : AgentState) (metric time_period filters group_by : String) :
    AgentState × Option String :=
  (st, generateQueryG st.metric_definitions metric time_period filters group_by)

def explain_result_tool (pyHash : String → Int) (st : AgentState)
    (result_value metric time_period : String) : AgentState × ExplainOutcome :=
  (st, explainResultG pyHash st.metric_definitions result_value metric time_period)

def validate_query_tool (st : AgentState) (sql_query : String) :
    AgentState × ValidationReport :=
  (st, validate_query sql_query)

structure Freshness where
  status : String
  last_updated : String
  message : String
deriving DecidableEq

structure Completeness where
  status : String
  coverage : Nat
  message : String
deriving DecidableEq

structure Anomalies where
  status : String
  message : String
  details : String
deriving DecidableEq

/-- `_check_data_freshness` (server.py lines 815-821). -/
def _check_data_freshness (metric : String) : Freshness :=
  { status := "✓", last_updated := "2 hours ago",
    message := "Data is current and recently refreshed" }

/-- `_check_data_completeness` (server.py lines 824-830). -/
def _check_data_completeness (metric time_period : String) : Completeness :=
  { status := "✓", coverage := 100, message := "No gaps detected in date range" }

/-- `_check_for_anomalies` (server.py lines 833-839). -/
def _check_for_anomalies (metric time_period : String) : Anomalies :=
  { status := "✓", message := "No anomalies detected",
    details := "Values are within 2σ of historical baseline" }

/-- `_calculate_quality_score` (server.py lines 842-851). -/
def _calculate_quality_score (f : Freshness) (c : Completeness) (a : Anomalies) : Nat :=
  (if f.status = "✓" then 40 else 0) + (if c.coverage ≥ 95 then 40 else 0) +
    (if a.status = "✓" then 20 else 0)

/-- `_quality_recommendations` (server.py lines 854-859). -/
def _quality_recommendations (f : Freshness) (c : Completeness) (a : Anomalies) : String :=
  if (f.status = "✓" && a.status = "✓") && c.coverage ≥ 95 then
    "✓ Data quality is excellent - proceed with confidence"
  else "⚠ Address data quality issues before making critical decisions"

inductive QualityOutcome
  | unknownMetric (name : String)
  | report (f : Freshness) (c : Completeness) (a : Anomalies) (score : Nat) (recs : String)
deriving DecidableEq

/-- `check_data_quality` (server.py lines 502-549). -/
def check_data_quality (st : AgentState) (metric time_period : String) :
    AgentState × QualityOutcome :=
  match st.metric_definitions.lookup metric with
  | none => (st, .unknownMetric metric)
  | some _ =>
    let f := _check_data_freshness metric
    let c := _check_data_completeness metric time_period
    let a := _check_for_anomalies metric time_period
    (st, .report f c a (_calculate_quality_score f c a) (_quality_recommendations f c a))

inductive CompareOutcome
  | unknownMetric (name : String)
  | report (value1 value2 v1_to_v2 : ℚ)
deriving DecidableEq

/-- `compare_metrics` (server.py lines 552-604) with the guarded value1/value2 quotient of `_generate_comparison_insights` (line 867). -/
def compare_metrics (pyHash : String → Int) (st : AgentState)
    (metric1 metric2 time_period : String) : AgentState × CompareOutcome :=
  match st.metric_definitions.lookup metric1 with
  | none => (st, .unknownMetric metric1)
  | some m1 =>
    match st.metric_definitions.lookup metric2 with
    | none => (st, .unknownMetric metric2)
    | some m2 =>
      let value1 :=
        _simulate_query_execution pyHash ("SELECT " ++ m1.sql_template ++ " FROM " ++ m1.table)
      let value2 :=
        _simulate_query_execution pyHash ("SELECT " ++ m2.sql_template ++ " FROM " ++ m2.table)
      (st, .report value1 value2 (if value2 ≠ 0 then value1 / value2 else 0))

/-! Helper lemmas. -/

theorem append_ne_empty_left (s t : String) (h : s ≠ "") : s ++ t ≠ "" := by
  intro he
  apply h
  have hd : s.data ++ t.data = [] := by
    have h2 := congrArg String.data he
    rwa [String.data_append] at h2
  exact String.ext (List.append_eq_nil.mp hd).1

theorem joinSep_cons_ne_empty (sep x : String) (rest : List String) (hx : x ≠ "") :
    joinSep sep (x :: rest) ≠ "" := by
  cases rest with
  | nil => simpa [joinSep] using hx
  | cons y t =>
    simp only [joinSep]
    exact append_ne_empty_left _ _ (append_ne_empty_left _ _ hx)

theorem timePeriodFallback_ne_empty (t : String) : timePeriodFallback t ≠ "" := by
  unfold timePeriodFallback
  split
  · decide
  · split <;> decide

theorem parse_time_period_ne_empty (tp : String) : _parse_time_period tp ≠ "" := by
  unfold _parse_time_period
  dsimp only
  split
  · split
    · exact append_ne_empty_left _ _ (append_ne_empty_left _ _ (by decide))
    · exact timePeriodFallback_ne_empty _
  · exact timePeriodFallback_ne_empty _

/-! Claim theorems. -/

/-- C1: for every metric id present in the catalog, `generate_query` builds the SELECT expression as the metric aggregation expression prefixed by the group-by expression when one is supplied, assembles the WHERE predicates in the fixed order [metric base filter if non-empty, time predicate, extra filter if non-empty] joined by " AND ", and appends the group-by expression verbatim as a GROUP BY clause; and the revenue/this-month/country/date scenario produces exactly the SQL the spec describes. -/
theorem c1_generate_query_synthesis :
    (∀ (metric : String) (md : MetricDef) (time_period filters group_by : String),
        METRIC_DEFINITIONS.lookup metric = some md →
        generate_query metric time_period filters group_by =
          some
            ("SELECT " ++
                (if group_by = "" then md.sql_template
                 else group_by ++ ", " ++ md.sql_template) ++
              "\nFROM " ++ md.table ++ "\nWHERE " ++
              joinSep " AND "
                ((if md.filter = "" then [] else [md.filter]) ++
                  [_parse_time_period time_period] ++
                  (if filters = "" then [] else [filters])) ++
              (if group_by = "" then "" else "\nGROUP BY " ++ group_by))) ∧
    generate_query "revenue" "this month" "country = \x27US\x27" "date" =
      some
        "SELECT date, SUM(amount)\nFROM analytics.transactions\nWHERE status = \x27completed\x27 AND event_date >= DATE_TRUNC(\x27month\x27, CURRENT_DATE) AND country = \x27US\x27\nGROUP BY date" := by
  constructor
  · intro metric md tp filters gb h
    have hd : _parse_time_period tp ≠ "" := parse_time_period_ne_empty tp
    simp only [generate_query, generateQueryG, h]
    simp only [buildQuery, if_neg hd]
    by_cases hf : md.filter = ""
    · by_cases hx : filters = "" <;> by_cases hg : gb = "" <;>
        simp [hf, hx, hg, joinSep_cons_ne_empty _ _ _ hd, String.append_assoc,
          String.append_empty]
    · by_cases hx : filters = "" <;> by_cases hg : gb = "" <;>
        simp [hf, hx, hg, joinSep_cons_ne_empty _ _ _ hf, joinSep_cons_ne_empty _ _ _ hd,
          String.append_assoc, String.append_empty]
  · decide

theorem c1_generate_query_synthesis_witness :
    METRIC_DEFINITIONS.lookup "revenue" =
        some
          { name := "Total Revenue",
            description := "Sum of all completed transaction amounts",
            sql_template := "SUM(amount)",
            table := "analytics.transactions",
            filter := "status = \x27completed\x27",
            unit := "dollars" } ∧
      generate_query "revenue" "last 3 days" "" "" =
        some
          ("SELECT " ++ "SUM(amount)" ++ "\nFROM " ++ "analytics.transactions" ++ "\nWHERE " ++
            joinSep " AND " [("status = \x27completed\x27" : String), _parse_time_period "last 3 days"] ++
            "") := by
  refine ⟨by decide, ?_⟩
  have h :=
    c1_generate_query_synthesis.1 "revenue"
      { name := "Total Revenue",
        description := "Sum of all completed transaction amounts",
        sql_template := "SUM(amount)",
        table := "analytics.transactions",
        filter := "status = \x27completed\x27",
        unit := "dollars" }
      "last 3 days" "" "" (by decide)
  simpa using h

/-- C2 counterexample: the question "salesignups" contains the catalog metric id "signups" as a substring (case-insensitively), yet `_parse_question` does not include "signups" — the glossary rewrite "sales" → "revenue" destroys the overlapping occurrence before metrics are matched, so the claim quantified over the original question text is false. -/
theorem c2_substring_resolution_cex :
    strContains (lowerStr "salesignups") "signups" = true ∧
      (METRIC_DEFINITIONS.lookup "signups").isSome = true ∧
      (_parse_question "salesignups").metrics = ["revenue"] ∧
      "signups" ∉ (_parse_question "salesignups").metrics := by
  decide

/-- C2 (amended): for every question whose lowercased, glossary-normalized text contains a catalog metric id or lowercase display name as a substring, `_parse_question` includes that metric id; the returned sequence always follows catalog scan order; and `resolve_question("How many active users last week?")` yields metrics `["active_users"]` and time-window phrase `"last 7 days"`. -/
theorem c2_metric_resolution_amended :
    (∀ (question metric : String) (md : MetricDef),
        (metric, md) ∈ METRIC_DEFINITIONS →
        (strContains (normalizeText BUSINESS_GLOSSARY (lowerStr question)) metric = true ∨
          strContains (normalizeText BUSINESS_GLOSSARY (lowerStr question))
              (lowerStr md.name) = true) →
        metric ∈ (_parse_question question).metrics) ∧
      (∀ question : String,
          List.Sublist (_parse_question question).metrics (METRIC_DEFINITIONS.map Prod.fst)) ∧
      (_parse_question "How many active users last week?").metrics = ["active_users"] ∧
      (_parse_question "How many active users last week?").time_period = "last 7 days" := by
  have hq :
      ∀ question : String,
        (_parse_question question).metrics =
          (METRIC_DEFINITIONS.filter
              (fun p =>
                strContains (normalizeText BUSINESS_GLOSSARY (lowerStr question)) p.1 ||
                  strContains (normalizeText BUSINESS_GLOSSARY (lowerStr question))
                    (lowerStr p.2.name))).map
            (fun p => p.1) :=
    fun _ => rfl
  refine ⟨?_, ?_, by decide, by decide⟩
  · intro question metric md hmem hc
    rw [hq]
    refine List.mem_map.mpr ⟨(metric, md), List.mem_filter.mpr ⟨hmem, ?_⟩, rfl⟩
    rcases hc with hc | hc <;> simp [hc]
  · intro question
    rw [hq]
    exact (List.filter_sublist _).map _

theorem c2_metric_resolution_amended_witness :
    ("active_users",
        ({ name := "Active Users",
           description := "Unique users who logged in at least once in the time period",
           sql_template := "COUNT(DISTINCT user_id)",
           table := "analytics.user_events",
           filter := "event_type = \x27login\x27",
           unit := "users" } : MetricDef)) ∈ METRIC_DEFINITIONS ∧
      "active_users" ∈ (_parse_question "How many active users last week?").metrics := by
  refine ⟨by decide, ?_⟩
  exact
    c2_metric_resolution_amended.1 "How many active users last week?" "active_users"
      { name := "Active Users",
        description := "Unique users who logged in at least once in the time period",
        sql_template := "COUNT(DISTINCT user_id)",
        table := "analytics.user_events",
        filter := "event_type = \x27login\x27",
        unit := "users" }
      (by decide) (Or.inr (by decide))

/-- C3 counterexample: the question "sales" contains none of the catalog metric ids or display names (case-insensitively), yet `_parse_question` returns `["revenue"]`, because the glossary rewrite "sales" → "revenue" introduces a metric mention before matching; the claim quantified over the original question text is false. -/
theorem c3_unmatched_question_cex :
    (∀ p ∈ METRIC_DEFINITIONS,
        strContains (lowerStr "sales") p.1 = false ∧
          strContains (lowerStr "sales") (lowerStr p.2.name) = false) ∧
      (_parse_question "sales").metrics = ["revenue"] := by
  decide

/-- C3 (amended): for every question whose lowercased, glossary-normalized text contains none of the catalog metric ids or lowercase display names, `_parse_question` returns an empty metric list. -/
theorem c3_unmatched_question_amended :
    ∀ question : String,
      (∀ p ∈ METRIC_DEFINITIONS,
          strContains (normalizeText BUSINESS_GLOSSARY (lowerStr question)) p.1 = false ∧
            strContains (normalizeText BUSINESS_GLOSSARY (lowerStr question))
                (lowerStr p.2.name) = false) →
      (_parse_question question).metrics = [] := by
  intro question h
  have hq :
      (_parse_question question).metrics =
        (METRIC_DEFINITIONS.filter
            (fun p =>
              strContains (normalizeText BUSINESS_GLOSSARY (lowerStr question)) p.1 ||
                strContains (normalizeText BUSINESS_GLOSSARY (lowerStr question))
                  (lowerStr p.2.name))).map
          (fun p => p.1) := rfl
  rw [hq]
  have hf :
      METRIC_DEFINITIONS.filter
          (fun p =>
            strContains (normalizeText BUSINESS_GLOSSARY (lowerStr question)) p.1 ||
              strContains (normalizeText BUSINESS_GLOSSARY (lowerStr question))
                (lowerStr p.2.name)) = [] := by
    refine List.filter_eq_nil_iff.mpr ?_
    intro p hp
    obtain ⟨h1, h2⟩ := h p hp
    simp [h1, h2]
  rw [hf]
  rfl

theorem c3_unmatched_question_amended_witness :
    (∀ p ∈ METRIC_DEFINITIONS,
        strContains (normalizeText BUSINESS_GLOSSARY (lowerStr "hello")) p.1 = false ∧
          strContains (normalizeText BUSINESS_GLOSSARY (lowerStr "hello"))
              (lowerStr p.2.name) = false) ∧
      (_parse_question "hello").metrics = [] :=
  ⟨by decide, c3_unmatched_question_amended "hello" (by decide)⟩

/-- C4 counterexample: `_parse_time_period` has no "past N weeks" branch — "past 2 weeks" is not converted to a 14-day window but silently degrades to the 7-day default predicate, so the claimed cascade of `_parse_time_period` is wrong about that pattern. -/
theorem c4_past_weeks_cex :
    _parse_time_period "past 2 weeks" =
        "event_date >= CURRENT_DATE - INTERVAL \x277 days\x27" ∧
      strContains (_parse_time_period "past 2 weeks") "14" = false := by
  decide

/-- C4 (amended): `_parse_time_period` is total and checks an ordered cascade with the first match winning — "last"+"days" both present with a first digit run N gives the N-days predicate, then "this month" gives the month-truncation predicate, then "last month" gives the previous-calendar-month range, and every other phrase falls back to the 7-day default; the "past N weeks" → N*7 days conversion is performed by `_parse_question`, whose normalized phrase then hits the first branch. -/
theorem c4_time_period_cascade_amended :
    (∀ (phrase : String) (ds : List Char),
        strContains (lowerStr phrase) "last" = true →
        strContains (lowerStr phrase) "days" = true →
        firstDigitRun (lowerStr phrase).data = some ds →
        _parse_time_period phrase =
          "event_date >= CURRENT_DATE - INTERVAL \x27" ++ String.mk ds ++ " days\x27") ∧
      (∀ phrase : String,
          (strContains (lowerStr phrase) "last" = false ∨
            strContains (lowerStr phrase) "days" = false ∨
            firstDigitRun (lowerStr phrase).data = none) →
          strContains (lowerStr phrase) "this month" = true →
          _parse_time_period phrase = "event_date >= DATE_TRUNC(\x27month\x27, CURRENT_DATE)") ∧
      (∀ phrase : String,
          (strContains (lowerStr phrase) "last" = false ∨
            strContains (lowerStr phrase) "days" = false ∨
            firstDigitRun (lowerStr phrase).data = none) →
          strContains (lowerStr phrase) "this month" = false →
          strContains (lowerStr phrase) "last month" = true →
          _parse_time_period phrase =
            "event_date >= DATE_TRUNC(\x27month\x27, CURRENT_DATE - INTERVAL \x271 month\x27) AND event_date < DATE_TRUNC(\x27month\x27, CURRENT_DATE)") ∧
      (∀ phrase : String,
          (strContains (lowerStr phrase) "last" = false ∨
            strContains (lowerStr phrase) "days" = false ∨
            firstDigitRun (lowerStr phrase).data = none) →
          strContains (lowerStr phrase) "this month" = false →
          strContains (lowerStr phrase) "last month" = false →
          _parse_time_period phrase =
            "event_date >= CURRENT_DATE - INTERVAL \x277 days\x27") ∧
      (parseQuestionG METRIC_DEFINITIONS BUSINESS_GLOSSARY "past 2 weeks").time_period =
        "last 14 days" ∧
      _parse_time_period "last 14 days" =
        "event_date >= CURRENT_DATE - INTERVAL \x2714 days\x27" := by
  refine ⟨?_, ?_, ?_, ?_, by decide, by decide⟩
  · intro phrase ds h1 h2 h3
    simp [_parse_time_period, h1, h2, h3]
  · intro phrase h hthis
    rcases h with h | h | h
    · simp [_parse_time_period, timePeriodFallback, h, hthis]
    · simp [_parse_time_period, timePeriodFallback, h, hthis]
    · cases hc : (strContains (lowerStr phrase) "last" && strContains (lowerStr phrase) "days") <;>
        simp [_parse_time_period, timePeriodFallback, hc, h, hthis]
  · intro phrase h hthis hlast
    rcases h with h | h | h
    · simp [_parse_time_period, timePeriodFallback, h, hthis, hlast]
    · simp [_parse_time_period, timePeriodFallback, h, hthis, hlast]
    · cases hc : (strContains (lowerStr phrase) "last" && strContains (lowerStr phrase) "days") <;>
        simp [_parse_time_period, timePeriodFallback, hc, h, hthis, hlast]
  · intro phrase h hthis hlast
    rcases h with h | h | h
    · simp [_parse_time_period, timePeriodFallback, h, hthis, hlast]
    · simp [_parse_time_period, timePeriodFallback, h, hthis, hlast]
    · cases hc : (strContains (lowerStr phrase) "last" && strContains (lowerStr phrase) "days") <;>
        simp [_parse_time_period, timePeriodFallback, hc, h, hthis, hlast]

theorem c4_time_period_cascade_amended_witness :
    _parse_time_period "last 3 days" =
        "event_date >= CURRENT_DATE - INTERVAL \x273 days\x27" ∧
      _parse_time_period "this month" = "event_date >= DATE_TRUNC(\x27month\x27, CURRENT_DATE)" ∧
      _parse_time_period "last month" =
        "event_date >= DATE_TRUNC(\x27month\x27, CURRENT_DATE - INTERVAL \x271 month\x27) AND event_date < DATE_TRUNC(\x27month\x27, CURRENT_DATE)" ∧
      _parse_time_period "yesterday" =
        "event_date >= CURRENT_DATE - INTERVAL \x277 days\x27" :=
  ⟨c4_time_period_cascade_amended.1 "last 3 days" ['3'] (by decide) (by decide) (by decide),
    c4_time_period_cascade_amended.2.1 "this month" (Or.inl (by decide)) (by decide),
    c4_time_period_cascade_amended.2.2.1 "last month" (Or.inr (Or.inl (by decide))) (by decide)
      (by decide),
    c4_time_period_cascade_amended.2.2.2.1 "yesterday" (Or.inl (by decide)) (by decide)
      (by decide)⟩

/-- C5: `validate_query` evaluates every rule family on every input, its verdict passes exactly when the issue list is empty (warnings and recommendations never enter the verdict), `validate("SELECT 1")` reports the missing-FROM issue (while still collecting a warning and a recommendation) and fails, and `validate("SELECT * FROM t WHERE x=1")` reports the SELECT * warning with zero issues and passes. -/
theorem c5_validate_query_verdict :
    (∀ sql_query : String,
        ((validate_query sql_query).passed = true ↔ (validate_query sql_query).issues = [])) ∧
      validate_query "SELECT 1" =
        { issues := ["Query missing FROM clause"],
          warnings := ["No WHERE clause - query will scan entire table"],
          recommendations := ["Consider adding a date filter to improve performance"],
          passed := false } ∧
      validate_query "SELECT * FROM t WHERE x=1" =
        { issues := [],
          warnings := ["SELECT * can be slow - specify only needed columns"],
          recommendations := ["Consider adding a date filter to improve performance"],
          passed := true } := by
  refine ⟨?_, by decide, by decide⟩
  intro sql_query
  have h : (validate_query sql_query).passed = (validate_query sql_query).issues.isEmpty := rfl
  rw [h, List.isEmpty_iff]

/-- C6: for every value and nonzero baseline, `_calculate_statistical_context` computes percent change as (value - baseline) / baseline * 100, reports direction "increase" exactly when the change is positive and "decrease" otherwise, and classifies the change as significant exactly when its absolute value exceeds 10, otherwise as within normal variance. -/
theorem c6_statistical_context (value baseline : ℚ) (h : baseline ≠ 0) :
    ∃ s : StatContext,
      _calculate_statistical_context value baseline = some s ∧
        s.change = (value - baseline) / baseline * 100 ∧
        (s.direction = "increase" ↔ s.change > 0) ∧
        (s.direction = "decrease" ↔ ¬s.change > 0) ∧
        (s.significance = "Significant" ↔ |s.change| > 10) ∧
        (s.significance = "Within normal variance" ↔ ¬|s.change| > 10) := by
  unfold _calculate_statistical_context
  rw [if_neg h]
  dsimp only
  refine ⟨_, rfl, rfl, ?_, ?_, ?_, ?_⟩ <;>
    [by_cases hc : (value - baseline) / baseline * 100 > 0;
     by_cases hc : (value - baseline) / baseline * 100 > 0;
     by_cases hc : |(value - baseline) / baseline * 100| > 10;
     by_cases hc : |(value - baseline) / baseline * 100| > 10] <;>
    simp [hc]

theorem c6_statistical_context_witness :
    (100 : ℚ) ≠ 0 ∧
      ∃ s : StatContext,
        _calculate_statistical_context 120 100 = some s ∧
          s.change = (120 - 100) / 100 * 100 ∧
          (s.direction = "increase" ↔ s.change > 0) ∧
          (s.direction = "decrease" ↔ ¬s.change > 0) ∧
          (s.significance = "Significant" ↔ |s.change| > 10) ∧
          (s.significance = "Within normal variance" ↔ ¬|s.change| > 10) :=
  ⟨by norm_num, c6_statistical_context 120 100 (by norm_num)⟩

/-- C7: `_simulate_query_execution` is deterministic in its input text — with the process hash function fixed, two calls with identical query strings return the same numeric value. -/
theorem c7_simulate_execution_deterministic (pyHash : String → Int) (sql1 sql2 : String)
    (h : sql1 = sql2) :
    _simulate_query_execution pyHash sql1 = _simulate_query_execution pyHash sql2 := by
  rw [h]

theorem c7_simulate_execution_deterministic_witness :
    "SELECT COUNT(DISTINCT user_id)\nFROM analytics.user_events" =
        "SELECT COUNT(DISTINCT user_id)\nFROM analytics.user_events" ∧
      _simulate_query_execution (fun s => (s.length : Int))
          "SELECT COUNT(DISTINCT user_id)\nFROM analytics.user_events" =
        _simulate_query_execution (fun s => (s.length : Int))
          "SELECT COUNT(DISTINCT user_id)\nFROM analytics.user_events" :=
  ⟨rfl,
    c7_simulate_execution_deterministic (fun s => (s.length : Int))
      "SELECT COUNT(DISTINCT user_id)\nFROM analytics.user_events"
      "SELECT COUNT(DISTINCT user_id)\nFROM analytics.user_events" rfl⟩

/-- C8: saving a template under a name whose normalized id is already stored returns the duplicate-template warning as a recoverable result and leaves the template store unchanged; saving "Weekly Report" twice with different SQL yields the duplicate outcome on the second call with the first SQL retained. -/
theorem c8_duplicate_template_preserved :
    (∀ (templates : List (String × QueryTemplate)) (name sql_query description now : String),
        (templates.lookup (templateIdOf name)).isSome = true →
        save_query_template templates name sql_query description now = (.duplicate, templates)) ∧
      save_query_template [] "Weekly Report" "SELECT 1 FROM a" "d1" "t0" =
        (.saved,
          [("weekly_report",
            { name := "Weekly Report", sql := "SELECT 1 FROM a", description := "d1",
              created_at := "t0", run_count := 0 })]) ∧
      save_query_template
          [("weekly_report",
            { name := "Weekly Report", sql := "SELECT 1 FROM a", description := "d1",
              created_at := "t0", run_count := 0 })]
          "Weekly Report" "SELECT 2 FROM b" "d2" "t1" =
        (.duplicate,
          [("weekly_report",
            { name := "Weekly Report", sql := "SELECT 1 FROM a", description := "d1",
              created_at := "t0", run_count := 0 })]) ∧
      ([(("weekly_report" : String),
          ({ name := "Weekly Report", sql := "SELECT 1 FROM a", description := "d1",
             created_at := "t0", run_count := 0 } : QueryTemplate))].lookup "weekly_report") =
        some
          { name := "Weekly Report", sql := "SELECT 1 FROM a", description := "d1",
            created_at := "t0", run_count := 0 } := by
  refine ⟨?_, by decide, by decide, by decide⟩
  intro templates name sql_query description now h
  cases hl : templates.lookup (templateIdOf name) with
  | none => rw [hl] at h; simp at h
  | some t => simp [save_query_template, hl]

theorem c8_duplicate_template_preserved_witness :
    (([(("weekly_report" : String),
          ({ name := "Weekly Report", sql := "SELECT 1 FROM a", description := "d1",
             created_at := "t0", run_count := 0 } : QueryTemplate))].lookup
          (templateIdOf "Weekly Report")).isSome = true) ∧
      save_query_template
          [("weekly_report",
            { name := "Weekly Report", sql := "SELECT 1 FROM a", description := "d1",
              created_at := "t0", run_count := 0 })]
          "Weekly Report" "SELECT 2 FROM b" "d2" "t1" =
        (.duplicate,
          [("weekly_report",
            { name := "Weekly Report", sql := "SELECT 1 FROM a", description := "d1",
              created_at := "t0", run_count := 0 })]) :=
  ⟨by decide,
    c8_duplicate_template_preserved.1
      [("weekly_report",
        { name := "Weekly Report", sql := "SELECT 1 FROM a", description := "d1",
          created_at := "t0", run_count := 0 })]
      "Weekly Report" "SELECT 2 FROM b" "d2" "t1" (by decide)⟩

/-- C9: every core operation — ask_question, generate_query, explain_result, validate_query, check_data_quality, compare_metrics — leaves the metric catalog and the business glossary components of the process state unchanged; of the four stores only the history log is written by these operations (ask_question's append), and none of them touches the template map. -/
theorem c9_catalog_glossary_frame :
    ∀ (pyHash : String → Int) (st : AgentState)
      (question time_period now metric metric2 filters group_by result_value sql_query : String),
      ((ask_question pyHash st question time_period now).1.metric_definitions =
            st.metric_definitions ∧
          (ask_question pyHash st question time_period now).1.business_glossary =
            st.business_glossary ∧
          (ask_question pyHash st question time_period now).1.query_templates =
            st.query_templates) ∧
        (generate_query_tool st metric time_period filters group_by).1 = st ∧
        (explain_result_tool pyHash st result_value metric time_period).1 = st ∧
        (validate_query_tool st sql_query).1 = st ∧
        (check_data_quality st metric time_period).1 = st ∧
        (compare_metrics pyHash st metric metric2 time_period).1 = st := by
  intro pyHash st question time_period now metric metric2 filters group_by result_value sql_query
  refine ⟨⟨?_, ?_, ?_⟩, rfl, rfl, rfl, ?_, ?_⟩ <;>
    [unfold ask_question; unfold ask_question; unfold ask_question;
     unfold check_data_quality; unfold compare_metrics] <;>
    dsimp only <;> (repeat' split) <;> rfl

/-- C10 counterexample: the baseline of `_get_historical_context` is 0.9 * value plus `hash(metric) % 200`, an offset the claim itself places in [0, 200); with a process hash assigning offset 0 to "revenue" and the perfectly numeric result value "0", the baseline is zero and `explain_result` hits the division by zero inside `_calculate_statistical_context` instead of returning a report, so the claim is false. -/
theorem c10_explain_result_divzero_cex :
    (METRIC_DEFINITIONS.lookup "revenue").isSome = true ∧
      parseFloat (pyReplace "0" "," "") = some 0 ∧
      ((0 : Int) % 200 = 0 ∧ (0 : Int) ≤ 0 % 200 ∧ (0 : Int) % 200 < 200) ∧
      explain_result (fun _ => 0) "0" "revenue" "last 7 days" = .divByZero := by
  refine ⟨by decide, ?_, by decide, ?_⟩
  · simp +decide [parseFloat, strTrim, digitsToNat, pyReplace, pyReplaceAux]
  · simp +decide [explain_result, explainResultG, parseFloat, strTrim, digitsToNat, pyReplace,
      pyReplaceAux, _get_historical_context, _calculate_statistical_context, METRIC_DEFINITIONS,
      List.lookup]

/-- C10 (amended): for every metric id in the catalog and every result_value string that parses as a positive number, `explain_result` completes and returns a report without raising — the baseline 0.9 * value + (hash(metric) % 200) is then strictly positive, since the offset is nonnegative, so the percent-change division never divides by zero. -/
theorem c10_explain_positive_value_amended :
    ∀ (pyHash : String → Int) (metric : String) (md : MetricDef)
      (result_value time_period : String) (x : ℚ),
      METRIC_DEFINITIONS.lookup metric = some md →
      parseFloat (pyReplace result_value "," "") = some x →
      0 < x →
      ∃ (b c : ℚ) (dir sig : String),
        explain_result pyHash result_value metric time_period = .report x b c dir sig := by
  intro pyHash metric md result_value time_period x hm hp hx
  have hk0 : (0 : ℚ) ≤ ((pyHash metric % 200 : ℤ) : ℚ) := by
    exact_mod_cast Int.emod_nonneg _ (by norm_num)
  have hb : (0 : ℚ) < x * (9 / 10 : ℚ) + ((pyHash metric % 200 : ℤ) : ℚ) :=
    add_pos_of_pos_of_nonneg (mul_pos hx (by norm_num)) hk0
  have hbne : x * (9 / 10 : ℚ) + ((pyHash metric % 200 : ℤ) : ℚ) ≠ 0 := ne_of_gt hb
  unfold explain_result explainResultG
  rw [hm, hp]
  unfold _get_historical_context _calculate_statistical_context
  dsimp only
  rw [if_neg hbne]
  exact ⟨_, _, _, _, rfl⟩

theorem c10_explain_positive_value_amended_witness :
    METRIC_DEFINITIONS.lookup "revenue" =
        some
          { name := "Total Revenue",
            description := "Sum of all completed transaction amounts",
            sql_template := "SUM(amount)",
            table := "analytics.transactions",
            filter := "status = \x27completed\x27",
            unit := "dollars" } ∧
      parseFloat (pyReplace "100" "," "") = some 100 ∧
      (0 : ℚ) < 100 ∧
      ∃ (b c : ℚ) (dir sig : String),
        explain_result (fun _ => 0) "100" "revenue" "last 7 days" =
          .report 100 b c dir sig := by
  refine ⟨by decide, ?_, by norm_num, ?_⟩
  · simp +decide [parseFloat, strTrim, digitsToNat, pyReplace, pyReplaceAux]
  · exact
      c10_explain_positive_value_amended (fun _ => 0) "revenue"
        { name := "Total Revenue",
          description := "Sum of all completed transaction amounts",
          sql_template := "SUM(amount)",
          table := "analytics.transactions",
          filter := "status = \x27completed\x27",
          unit := "dollars" }
        "100" "last 7 days" 100 (by decide)
        (by simp +decide [parseFloat, strTrim, digitsToNat, pyReplace, pyReplaceAux])
        (by norm_num)

end InsightsAgent
